import Mathlib

/-!
Verification of the balance / credit-cycle core of the inova-finance-hub
repository, shallowly embedded from the TypeScript source.

Modelling conventions:
* Currency amounts are exact rationals (`ℚ`).  The source stores JS `number`s;
  all properties proved here are order/sum facts that are insensitive to the
  idealisation, except where JS special values (NaN, ±Infinity) matter — those
  are modelled explicitly by `JSNum` at the single place they can arise
  (`parseFloat` of the user-edited amount in the confirmation flow).
* The Dexie/IndexedDB store is a pair of lists (`DBState`).  `add` appends,
  `update` rewrites the record with the given primary key, `where('userId')
  .equals(u).first()` is `List.find?`.  Transaction ordering (the source sorts
  by date for display) is irrelevant to every property proved here, so
  `getTransactions` is a plain filter.
* The JS truthiness idiom `x || d` on numbers is `jsOrQ` (`0` is falsy).
* Optional / possibly-absent fields are `Option`.
-/

namespace InovaFinance

inductive TxType where
  | income
  | expense
deriving DecidableEq, Repr

inductive PayMethod where
  | debit
  | credit
deriving DecidableEq, Repr

/-- `Transaction` from src/src/lib/db.ts.  `paymentMethod` is `Option` to
cover legacy records without a payment method (the source guards with
`!t.paymentMethod`). -/
structure Transaction where
  id : Option Nat := none
  amount : ℚ
  type : TxType
  paymentMethod : Option PayMethod
  category : String
  description : String
  date : Int
  userId : String
deriving DecidableEq, Repr

/-- `Profile` from src/src/lib/db.ts (fields not touched by any claim are
omitted: email, phone, biometricId, createdAt, creditDueDate). -/
structure Profile where
  id : Option Nat := none
  userId : String
  fullName : String
  initialBalance : ℚ
  creditLimit : ℚ
  creditUsed : ℚ
  creditDueDay : Option Int := none
deriving DecidableEq, Repr

/-- The Dexie store `inovafinance` restricted to the tables the claims use. -/
structure DBState where
  profiles : List Profile
  transactions : List Transaction
deriving DecidableEq, Repr

/-- JS `x || d` for numeric `x`: `0` is falsy and is replaced by the default. -/
def jsOrQ (x d : ℚ) : ℚ :=
  if x = 0 then d else x

theorem jsOrQ_zero_right (x : ℚ) : jsOrQ x 0 = x := by
  by_cases h : x = 0 <;> simp [jsOrQ, h]

/-- `getProfile` from db.ts: `db.profiles.where('userId').equals(userId).first()`. -/
def getProfile (profiles : List Profile) (userId : String) : Option Profile :=
  profiles.find? (fun p => p.userId == userId)

/-- `getTransactions` from db.ts.  The source additionally orders by date,
which no claim observes; sums are order-independent. -/
def getTransactions (st : DBState) (userId : String) : List Transaction :=
  st.transactions.filter (fun t => t.userId == userId)

/-- `db.profiles.update(pid, { creditUsed: v })`: rewrite the record whose
primary key is `pid`. -/
def updateCreditUsed (profiles : List Profile) (pid : Nat) (v : ℚ) : List Profile :=
  profiles.map (fun p => if p.id == some pid then { p with creditUsed := v } else p)

/-- The guard in `addTransaction`:
`transaction.type === 'expense' && transaction.paymentMethod === 'credit'`. -/
def isCreditExpense (t : Transaction) : Bool :=
  t.type == TxType.expense && t.paymentMethod == some PayMethod.credit

/-- `addTransaction` from db.ts: a credit-method expense first bumps the
owner profile's `creditUsed` by the amount (`(profile.creditUsed || 0) +
transaction.amount`), when such a profile with a primary key exists; the
transaction is then appended. -/
def addTransaction (st : DBState) (t : Transaction) : DBState :=
  let profiles1 :=
    if isCreditExpense t then
      match getProfile st.profiles t.userId with
      | some p =>
        match p.id with
        | some pid => updateCreditUsed st.profiles pid (jsOrQ p.creditUsed 0 + t.amount)
        | none => st.profiles
      | none => st.profiles
    else st.profiles
  { profiles := profiles1, transactions := st.transactions ++ [t] }

/-- Result record of `calculateBalance`. -/
structure BalanceResult where
  balance : ℚ
  totalIncome : ℚ
  totalExpense : ℚ
  debitBalance : ℚ
  creditUsed : ℚ
deriving DecidableEq, Repr

/-- One step of the `transactions.forEach` loop in `calculateBalance`:
accumulates `(totalIncome, totalExpense, debitExpense)`. -/
def balanceStep (acc : ℚ × ℚ × ℚ) (t : Transaction) : ℚ × ℚ × ℚ :=
  if t.type == TxType.income then
    (acc.1 + t.amount, acc.2.1, acc.2.2)
  else
    if t.paymentMethod == some PayMethod.debit || t.paymentMethod == none then
      (acc.1, acc.2.1 + t.amount, acc.2.2 + t.amount)
    else
      (acc.1, acc.2.1 + t.amount, acc.2.2)

/-- `calculateBalance` from db.ts. -/
def calculateBalance (st : DBState) (userId : String) (initialBalance : ℚ) :
    BalanceResult :=
  let ts := getTransactions st userId
  let acc := ts.foldl balanceStep (0, 0, 0)
  let totalIncome := acc.1
  let totalExpense := acc.2.1
  let debitExpense := acc.2.2
  let creditUsed :=
    match getProfile st.profiles userId with
    | some p => jsOrQ p.creditUsed 0
    | none => 0
  { balance := initialBalance + totalIncome - totalExpense
    totalIncome := totalIncome
    totalExpense := totalExpense
    debitBalance := initialBalance + totalIncome - debitExpense
    creditUsed := creditUsed }

/-! Spec-side sums, written the way the specification phrases them. -/

/-- Sum of the amounts of income transactions. -/
def sumIncome (ts : List Transaction) : ℚ :=
  ((ts.filter (fun t => t.type == TxType.income)).map Transaction.amount).sum

/-- Sum of the amounts of all expense transactions, regardless of method. -/
def sumExpense (ts : List Transaction) : ℚ :=
  ((ts.filter (fun t => t.type == TxType.expense)).map Transaction.amount).sum

/-- Sum of the amounts of expense transactions whose payment method is
`debit` or unset. -/
def sumDebitExpense (ts : List Transaction) : ℚ :=
  ((ts.filter (fun t =>
      t.type == TxType.expense &&
        (t.paymentMethod == some PayMethod.debit || t.paymentMethod == none))).map
    Transaction.amount).sum

/-- Sum of the amounts of expense transactions paid by credit. -/
def sumCreditExpense (ts : List Transaction) : ℚ :=
  ((ts.filter isCreditExpense).map Transaction.amount).sum

theorem balanceFold_eq (ts : List Transaction) :
    ∀ a b c : ℚ,
      ts.foldl balanceStep (a, b, c) =
        (a + sumIncome ts, b + sumExpense ts, c + sumDebitExpense ts) := by
  induction ts with
  | nil =>
    intro a b c
    simp [sumIncome, sumExpense, sumDebitExpense]
  | cons t ts ih =>
    intro a b c
    rcases t with ⟨tid, amt, ty, pm, cat, desc, date, uid⟩
    cases ty with
    | income =>
      simp only [List.foldl_cons, balanceStep, ih]
      simp [sumIncome, sumExpense, sumDebitExpense, List.filter_cons, add_assoc]
    | expense =>
      cases pm with
      | none =>
        simp only [List.foldl_cons, balanceStep, ih]
        simp [sumIncome, sumExpense, sumDebitExpense, List.filter_cons, add_assoc]
      | some m =>
        cases m with
        | debit =>
          simp only [List.foldl_cons, balanceStep, ih]
          simp [sumIncome, sumExpense, sumDebitExpense, List.filter_cons, add_assoc]
        | credit =>
          simp only [List.foldl_cons, balanceStep, ih]
          simp [sumIncome, sumExpense, sumDebitExpense, List.filter_cons, add_assoc]

/-- The concrete history of Scenario 1: one income of 500, one debit/food
expense of 200, both owned by user `"u1"`. -/
def scenario1State : DBState :=
  { profiles := []
    transactions :=
      [ { amount := 500, type := TxType.income, paymentMethod := some PayMethod.debit
          category := "salary", description := "", date := 0, userId := "u1" }
      , { amount := 200, type := TxType.expense, paymentMethod := some PayMethod.debit
          category := "food", description := "", date := 1, userId := "u1" } ] }

/-- C1: for every user and transaction history, `calculateBalance` returns
`totalIncome` = the sum of income amounts, `totalExpense` = the sum of all
expense amounts regardless of method, `balance = initialBalance + totalIncome
- totalExpense`, and `debitBalance = initialBalance + totalIncome -
debitExpense` where `debitExpense` sums expense amounts whose method is debit
or unset; and on Scenario 1 (initialBalance 1000, income 500, debit expense
200) it returns balance 1300 and debitBalance 1300. -/
theorem calculateBalance_spec :
    (∀ (st : DBState) (u : String) (init : ℚ),
      (calculateBalance st u init).totalIncome = sumIncome (getTransactions st u) ∧
      (calculateBalance st u init).totalExpense = sumExpense (getTransactions st u) ∧
      (calculateBalance st u init).balance =
        init + sumIncome (getTransactions st u) - sumExpense (getTransactions st u) ∧
      (calculateBalance st u init).debitBalance =
        init + sumIncome (getTransactions st u) - sumDebitExpense (getTransactions st u)) ∧
    (calculateBalance scenario1State "u1" 1000).balance = 1300 ∧
    (calculateBalance scenario1State "u1" 1000).debitBalance = 1300 := by
  refine ⟨fun st u init => ?_, ?_, ?_⟩
  case refine_2 =>
    simp [calculateBalance, getTransactions, scenario1State, balanceStep,
      List.filter, getProfile]
    norm_num
  case refine_3 =>
    simp [calculateBalance, getTransactions, scenario1State, balanceStep,
      List.filter, getProfile]
    norm_num
  simp only [calculateBalance, balanceFold_eq]
  refine ⟨by simp, by simp, by simp, by simp⟩

/-- C9 (amended): `calculateBalance` is total — it returns a result for every
`userId`, with no error path — and on a userId with no stored profile and no
stored transactions the sums and `creditUsed` are all 0 while `balance` and
`debitBalance` equal the caller-supplied `initialBalance` (so the result is
fully zero-valued exactly when `initialBalance = 0`). -/
theorem calculateBalance_absent_profile (st : DBState) (u : String) (init : ℚ)
    (hp : getProfile st.profiles u = none)
    (ht : getTransactions st u = []) :
    calculateBalance st u init =
      { balance := init, totalIncome := 0, totalExpense := 0
        debitBalance := init, creditUsed := 0 } := by
  simp [calculateBalance, ht, hp]

/-- Witness for `calculateBalance_absent_profile` at the empty store. -/
theorem calculateBalance_absent_profile_witness :
    getProfile (DBState.mk [] []).profiles "u9" = none ∧
    getTransactions (DBState.mk [] []) "u9" = [] ∧
    calculateBalance (DBState.mk [] []) "u9" 0 =
      { balance := 0, totalIncome := 0, totalExpense := 0
        debitBalance := 0, creditUsed := 0 } :=
  ⟨rfl, rfl, calculateBalance_absent_profile (DBState.mk [] []) "u9" 0 rfl rfl⟩

/-- C9, counterexample to the claim as stated: on an absent profile (and empty
transaction list) the result is not zero-valued whenever the caller passes a
nonzero `initialBalance` — here balance comes back 7, not 0. -/
theorem calculateBalance_absent_profile_not_zero_valued :
    getProfile (DBState.mk [] []).profiles "nobody" = none ∧
    (calculateBalance (DBState.mk [] []) "nobody" 7).balance = 7 ∧
    (7 : ℚ) ≠ 0 := by
  refine ⟨rfl, ?_, by norm_num⟩
  simp [calculateBalance, getTransactions, getProfile]

/-- C10: inserting a credit-method expense for a userId that has no profile
still succeeds — the transaction is appended — and the profiles table is left
completely unchanged (the credit spending lands in no `creditUsed` counter). -/
theorem addTransaction_no_profile_frame (st : DBState) (t : Transaction)
    (hexp : t.type = TxType.expense)
    (hpm : t.paymentMethod = some PayMethod.credit)
    (hp : getProfile st.profiles t.userId = none) :
    (addTransaction st t).profiles = st.profiles ∧
    (addTransaction st t).transactions = st.transactions ++ [t] := by
  unfold addTransaction
  rw [hp]
  exact ⟨by simp, rfl⟩

/-- Witness for `addTransaction_no_profile_frame`: a concrete credit expense
for a user absent from a one-profile store. -/
theorem addTransaction_no_profile_frame_witness :
    (addTransaction
        (DBState.mk
          [{ id := some 1, userId := "a", fullName := "A", initialBalance := 0
             creditLimit := 5000, creditUsed := 0 }] [])
        { amount := 40, type := TxType.expense, paymentMethod := some PayMethod.credit
          category := "food", description := "", date := 0, userId := "ghost" }).profiles =
      [{ id := some 1, userId := "a", fullName := "A", initialBalance := 0
         creditLimit := 5000, creditUsed := 0 }] ∧
    (addTransaction
        (DBState.mk
          [{ id := some 1, userId := "a", fullName := "A", initialBalance := 0
             creditLimit := 5000, creditUsed := 0 }] [])
        { amount := 40, type := TxType.expense, paymentMethod := some PayMethod.credit
          category := "food", description := "", date := 0, userId := "ghost" }).transactions =
      [{ amount := 40, type := TxType.expense, paymentMethod := some PayMethod.credit
         category := "food", description := "", date := 0, userId := "ghost" }] :=
  addTransaction_no_profile_frame _ _ rfl rfl rfl

theorem find?_map_userId (l : List Profile) (f : Profile → Profile)
    (hf : ∀ x, (f x).userId = x.userId) (u : String) :
    (l.map f).find? (fun p => p.userId == u) =
      (l.find? (fun p => p.userId == u)).map f := by
  induction l with
  | nil => rfl
  | cons q l ih =>
    by_cases hq : q.userId = u
    · rw [List.map_cons,
        List.find?_cons_of_pos _ (by simp [hf, hq]),
        List.find?_cons_of_pos _ (by simp [hq])]
      rfl
    · rw [List.map_cons,
        List.find?_cons_of_neg _ (by simp [hf, hq]),
        List.find?_cons_of_neg _ (by simp [hq])]
      exact ih

theorem getProfile_updateCreditUsed (l : List Profile) (pid : Nat) (v : ℚ) (u : String) :
    getProfile (updateCreditUsed l pid v) u =
      (getProfile l u).map
        (fun p => if p.id == some pid then { p with creditUsed := v } else p) := by
  unfold getProfile updateCreditUsed
  exact find?_map_userId l _ (fun x => by by_cases h : x.id == some pid <;> simp [h]) u

/-- Effect of one `addTransaction` on the stored profile of the transaction's
owner: a credit-method expense adds its amount to `creditUsed`; every other
transaction leaves the profile untouched. -/
theorem getProfile_addTransaction (st : DBState) (t : Transaction) (p : Profile)
    (pid : Nat)
    (hp : getProfile st.profiles t.userId = some p) (hid : p.id = some pid) :
    getProfile (addTransaction st t).profiles t.userId =
      some (if isCreditExpense t then { p with creditUsed := p.creditUsed + t.amount }
            else p) := by
  unfold addTransaction
  by_cases hc : isCreditExpense t
  · simp only [hc, if_true, hp, hid]
    rw [getProfile_updateCreditUsed, hp]
    simp [hid, jsOrQ_zero_right]
  · simp only [hc, if_false]
    simpa [hc] using hp

/-- Folding a whole list of insertions through `addTransaction`. -/
def insertAll (st : DBState) (ts : List Transaction) : DBState :=
  ts.foldl addTransaction st

theorem sumCreditExpense_cons (t : Transaction) (ts : List Transaction) :
    sumCreditExpense (t :: ts) =
      (if isCreditExpense t then t.amount else 0) + sumCreditExpense ts := by
  by_cases h : isCreditExpense t <;>
    simp [sumCreditExpense, List.filter_cons, h]

/-- C2: over any sequence of insertions owned by user `u`, the stored
profile's `creditUsed` ends at its starting value plus the sum of the amounts
of the inserted credit-method expenses; income and debit-method insertions
contribute nothing.  Each insertion and its `creditUsed` increment are one
step of the same `addTransaction` transition. -/
theorem creditUsed_conservation (ts : List Transaction) :
    ∀ (st : DBState) (u : String) (p : Profile) (pid : Nat),
      getProfile st.profiles u = some p → p.id = some pid →
      (∀ t ∈ ts, t.userId = u) →
      getProfile (insertAll st ts).profiles u =
        some { p with creditUsed := p.creditUsed + sumCreditExpense ts } := by
  induction ts with
  | nil =>
    intro st u p pid hp _ _
    simpa [insertAll, sumCreditExpense] using hp
  | cons t ts ih =>
    intro st u p pid hp hid hu
    have htu : t.userId = u := hu t (List.mem_cons_self t ts)
    have hstep := getProfile_addTransaction st t p pid (htu ▸ hp) hid
    rw [htu] at hstep
    have hrest : ∀ t' ∈ ts, t'.userId = u := fun t' ht' => hu t' (List.mem_cons_of_mem t ht')
    by_cases hc : isCreditExpense t
    · rw [if_pos hc] at hstep
      have := ih (addTransaction st t) u
        { p with creditUsed := p.creditUsed + t.amount } pid hstep (by simpa using hid) hrest
      rw [insertAll, List.foldl_cons, ← insertAll, this]
      rcases p with ⟨pi, pu, pf, pib, pcl, pcu, pdd⟩
      simp [sumCreditExpense_cons, hc, add_assoc]
    · rw [if_neg hc] at hstep
      have := ih (addTransaction st t) u p pid hstep hid hrest
      rw [insertAll, List.foldl_cons, ← insertAll, this]
      simp [sumCreditExpense_cons, hc]

/-- The start state for the C2 witness: one profile for `"u"` with
`creditUsed = 100`. -/
def c2State : DBState :=
  { profiles := [{ id := some 1, userId := "u", fullName := "U", initialBalance := 0
                   creditLimit := 5000, creditUsed := 100 }]
    transactions := [] }

/-- The insertions for the C2 witness: credit expenses of 30 and 45, plus an
income and a debit expense that must not count. -/
def c2Inserts : List Transaction :=
  [ { amount := 30, type := TxType.expense, paymentMethod := some PayMethod.credit
      category := "food", description := "", date := 0, userId := "u" }
  , { amount := 50, type := TxType.income, paymentMethod := some PayMethod.debit
      category := "salary", description := "", date := 1, userId := "u" }
  , { amount := 20, type := TxType.expense, paymentMethod := some PayMethod.debit
      category := "food", description := "", date := 2, userId := "u" }
  , { amount := 45, type := TxType.expense, paymentMethod := some PayMethod.credit
      category := "shopping", description := "", date := 3, userId := "u" } ]

/-- Witness for `creditUsed_conservation`: after the four concrete insertions
`creditUsed` is 100 + (30 + 45) = 175. -/
theorem creditUsed_conservation_witness :
    getProfile (insertAll c2State c2Inserts).profiles "u" =
      some { id := some 1, userId := "u", fullName := "U", initialBalance := 0
             creditLimit := 5000, creditUsed :=
               (100 : ℚ) + sumCreditExpense c2Inserts } ∧
    (100 : ℚ) + sumCreditExpense c2Inserts = 175 := by
  constructor
  · exact creditUsed_conservation c2Inserts c2State "u"
      { id := some 1, userId := "u", fullName := "U", initialBalance := 0
        creditLimit := 5000, creditUsed := 100 } 1 rfl rfl (by decide)
  · simp [c2Inserts, sumCreditExpense_cons, sumCreditExpense, isCreditExpense]
    norm_num

/-- A profile whose credit due day (the 5th) has already passed — the state
in which the spec's cycle rollover should zero `creditUsed` — with an
outstanding `creditUsed` of 300. -/
def c3State : DBState :=
  { profiles := [{ id := some 1, userId := "u3", fullName := "U", initialBalance := 0
                   creditLimit := 5000, creditUsed := 300, creditDueDay := some 5 }]
    transactions := [] }

/-- C3, evaluated at the failing input: with `creditDueDay = 5` and the due
date already elapsed, the repository has no operation that zeroes
`creditUsed`.  The balance-read path (`Card.loadData` →
`calculateBalance`) consults no clock and performs no write — it simply
reports the stored 300 — and `addTransaction` either leaves `creditUsed`
alone (debit expense) or increments it (credit expense); no code path ever
assigns `creditUsed = 0` after profile creation, so the spec's once-per-cycle
reset cannot occur. -/
theorem creditUsed_never_reset :
    (calculateBalance c3State "u3" 0).creditUsed = 300 ∧
    (addTransaction c3State
        { amount := 50, type := TxType.expense, paymentMethod := some PayMethod.debit
          category := "food", description := "", date := 0, userId := "u3" }).profiles
      = c3State.profiles ∧
    getProfile
      (addTransaction c3State
        { amount := 20, type := TxType.expense, paymentMethod := some PayMethod.credit
          category := "food", description := "", date := 0, userId := "u3" }).profiles
      "u3"
      = some { id := some 1, userId := "u3", fullName := "U", initialBalance := 0
               creditLimit := 5000, creditUsed := 320, creditDueDay := some 5 } := by
  refine ⟨?_, ?_, ?_⟩
  · simp [calculateBalance, getTransactions, c3State, getProfile, jsOrQ]
  · simp [addTransaction, isCreditExpense, c3State]
  · simp [addTransaction, isCreditExpense, c3State, getProfile, updateCreditUsed, jsOrQ]
    norm_num

/-! The confirmation flow of src/src/pages/AI.tsx (`confirmTransaction`).
The amount being confirmed is a JS number coming from `parseFloat` of the
user-edited text (or from the parser's `args.amount`), so NaN and ±Infinity
are representable; `JSNum` models exactly those special values plus finite
values as exact rationals. -/

inductive JSNum where
  | nan
  | posInf
  | negInf
  | fin (q : ℚ)
deriving DecidableEq, Repr

/-- JS `isNaN(x)` on a number. -/
def jsIsNaN : JSNum → Bool
  | .nan => true
  | _ => false

/-- JS `x <= 0`: NaN comparisons are false; `-Infinity <= 0` is true. -/
def jsLeZero : JSNum → Bool
  | .nan => false
  | .posInf => false
  | .negInf => true
  | .fin q => decide (q ≤ 0)

/-- JS `x > a` against a finite `a`: false for NaN, true for `+Infinity`. -/
def jsGtQ : JSNum → ℚ → Bool
  | .nan, _ => false
  | .posInf, _ => true
  | .negInf, _ => false
  | .fin q, a => decide (a < q)

/-- The finite value of a JS number.  The store idealises amounts as exact
rationals, so a non-finite amount that slips past validation (the
`+Infinity` gap proved below) has no rational image and is represented by 0;
no theorem below inspects the stored amount in that corner — only the
accept/reject outcome and whether an insertion happened. -/
def jsToQ : JSNum → ℚ
  | .fin q => q
  | _ => 0

/-- The `pendingTransaction` state of the AI page. -/
structure Pending where
  amount : JSNum
  type : TxType
  paymentMethod : PayMethod
  category : String
  description : String
deriving DecidableEq, Repr

inductive ConfirmOutcome where
  | invalidAmount
  | insufficientCredit
  | accepted
deriving DecidableEq, Repr

/-- `confirmTransaction` from src/src/pages/AI.tsx.  `user` is the
AuthContext profile snapshot the page holds; `editedAmount` stands for the
already-parsed `parseFloat(editedAmount)`.  The guards, in source order:
`isNaN(finalAmount) || finalAmount <= 0` rejects the amount; for a credit
expense, `finalAmount > (user.creditLimit || 5000) - (user.creditUsed || 0)`
rejects for insufficient credit; otherwise `addTransaction` runs (income is
always stored with method debit). -/
def confirmTransaction (user : Profile) (st : DBState) (pending : Pending)
    (editingAmount : Bool) (editedAmount : JSNum) (now : Int) :
    ConfirmOutcome × DBState :=
  let finalAmount := if editingAmount then editedAmount else pending.amount
  if jsIsNaN finalAmount || jsLeZero finalAmount then
    (ConfirmOutcome.invalidAmount, st)
  else
    if pending.type == TxType.expense && pending.paymentMethod == PayMethod.credit
        && jsGtQ finalAmount (jsOrQ user.creditLimit 5000 - jsOrQ user.creditUsed 0) then
      (ConfirmOutcome.insufficientCredit, st)
    else
      (ConfirmOutcome.accepted,
       addTransaction st
         { amount := jsToQ finalAmount
           type := pending.type
           paymentMethod :=
             some (if pending.type == TxType.expense then pending.paymentMethod
                   else PayMethod.debit)
           category := pending.category
           description := pending.description
           date := now
           userId := user.userId })

/-- C4 (amended): for a pending credit-method expense with a finite positive
parsed amount, confirmation is rejected with a validation error and no
mutation whenever the amount exceeds `effectiveLimit - creditUsed`, where
`effectiveLimit` is `creditLimit` when nonzero and the call site's default
5000 when `creditLimit` is 0/unset (the source checks against
`(user.creditLimit || 5000) - (user.creditUsed || 0)`); an amount at most
that available credit is accepted and inserted. -/
theorem confirmTransaction_credit_check (user : Profile) (st : DBState)
    (pending : Pending) (editing : Bool) (edited : JSNum) (now : Int) (a : ℚ)
    (hexp : pending.type = TxType.expense)
    (hcm : pending.paymentMethod = PayMethod.credit)
    (hfin : (if editing then edited else pending.amount) = JSNum.fin a)
    (hpos : 0 < a) :
    (jsOrQ user.creditLimit 5000 - jsOrQ user.creditUsed 0 < a →
      confirmTransaction user st pending editing edited now =
        (ConfirmOutcome.insufficientCredit, st)) ∧
    (a ≤ jsOrQ user.creditLimit 5000 - jsOrQ user.creditUsed 0 →
      confirmTransaction user st pending editing edited now =
        (ConfirmOutcome.accepted,
         addTransaction st
           { amount := a, type := TxType.expense
             paymentMethod := some PayMethod.credit
             category := pending.category, description := pending.description
             date := now, userId := user.userId })) := by
  constructor
  · intro hgt
    simp [confirmTransaction, hfin, hexp, hcm, jsIsNaN, jsLeZero, jsGtQ,
      not_le.mpr hpos, hgt]
  · intro hle
    simp [confirmTransaction, hfin, hexp, hcm, jsIsNaN, jsLeZero, jsGtQ, jsToQ,
      not_le.mpr hpos, not_lt.mpr hle]

/-- Profile of Scenario 2: creditLimit 5000, creditUsed 0. -/
def c4User : Profile :=
  { id := some 1, userId := "c4", fullName := "C", initialBalance := 0
    creditLimit := 5000, creditUsed := 0 }

/-- Store holding only `c4User`. -/
def c4State : DBState := { profiles := [c4User], transactions := [] }

/-- The pending credit expense of Scenario 2, parameterised by amount. -/
def c4Pending (amt : ℚ) (cat : String) : Pending :=
  { amount := JSNum.fin amt, type := TxType.expense
    paymentMethod := PayMethod.credit, category := cat, description := "" }

/-- Witness for `confirmTransaction_credit_check`, replaying Scenario 2: with
creditLimit 5000 and creditUsed 0 a 300 credit expense is accepted (creditUsed
becomes 300) and a subsequent 4800 credit expense is rejected (available is
only 4700). -/
theorem confirmTransaction_credit_check_witness :
    (confirmTransaction c4User c4State (c4Pending 300 "food") false (JSNum.fin 0) 0).1 =
      ConfirmOutcome.accepted ∧
    getProfile
      (confirmTransaction c4User c4State (c4Pending 300 "food") false
        (JSNum.fin 0) 0).2.profiles "c4" =
      some { id := some 1, userId := "c4", fullName := "C", initialBalance := 0
             creditLimit := 5000, creditUsed := 300 } ∧
    (confirmTransaction
        { id := some 1, userId := "c4", fullName := "C", initialBalance := 0
          creditLimit := 5000, creditUsed := 300 }
        (confirmTransaction c4User c4State (c4Pending 300 "food") false
          (JSNum.fin 0) 0).2
        (c4Pending 4800 "shopping") false (JSNum.fin 0) 1).1 =
      ConfirmOutcome.insufficientCredit := by
  have h300 := (confirmTransaction_credit_check c4User c4State (c4Pending 300 "food")
    false (JSNum.fin 0) 0 300 rfl rfl rfl (by norm_num)).2
    (by norm_num [c4User, jsOrQ])
  have h4800 := (confirmTransaction_credit_check
    { id := some 1, userId := "c4", fullName := "C", initialBalance := 0
      creditLimit := 5000, creditUsed := 300 }
    (confirmTransaction c4User c4State (c4Pending 300 "food") false
      (JSNum.fin 0) 0).2
    (c4Pending 4800 "shopping") false (JSNum.fin 0) 1 4800 rfl rfl rfl
    (by norm_num)).1 (by norm_num [jsOrQ])
  refine ⟨by rw [h300], ?_, by rw [h4800]⟩
  rw [h300]
  simp [addTransaction, isCreditExpense, c4State, c4User, getProfile,
    updateCreditUsed, jsOrQ]

/-- A profile with `creditLimit = 0`: the amended clause matters because the
call site replaces a falsy limit by 5000. -/
def c4zUser : Profile :=
  { id := some 2, userId := "z4", fullName := "Z", initialBalance := 0
    creditLimit := 0, creditUsed := 0 }

/-- C4, counterexample to the claim as stated: with `creditLimit = 0` and
`creditUsed = 0`, a 300 credit expense exceeds `creditLimit - creditUsed = 0`
yet is accepted (the source compares against `creditLimit || 5000 = 5000`),
and a transaction is inserted. -/
theorem confirmTransaction_credit_check_zero_limit :
    c4zUser.creditLimit - c4zUser.creditUsed < 300 ∧
    (confirmTransaction c4zUser (DBState.mk [c4zUser] [])
        { amount := JSNum.fin 300, type := TxType.expense
          paymentMethod := PayMethod.credit, category := "food", description := "" }
        false (JSNum.fin 0) 0).1 = ConfirmOutcome.accepted ∧
    (confirmTransaction c4zUser (DBState.mk [c4zUser] [])
        { amount := JSNum.fin 300, type := TxType.expense
          paymentMethod := PayMethod.credit, category := "food", description := "" }
        false (JSNum.fin 0) 0).2.transactions.length = 1 := by
  refine ⟨by norm_num [c4zUser], ?_, ?_⟩ <;>
    · simp [confirmTransaction, c4zUser, jsIsNaN, jsLeZero, jsGtQ, jsOrQ,
        addTransaction, isCreditExpense, getProfile, updateCreditUsed]
      norm_num

/-- C5 (amended): for every profile state whose `creditLimit` is nonzero (the
call site replaces a falsy `creditLimit` by the default 5000) and whose
confirmation-time snapshot agrees with the store, every credit-method expense
insertion accepted at the confirmation call site leaves the stored profile
with `creditUsed ≤ creditLimit`. -/
theorem creditUsed_le_limit_on_accept (user : Profile) (st : DBState)
    (pending : Pending) (editing : Bool) (edited : JSNum) (now : Int) (pid : Nat)
    (hsync : getProfile st.profiles user.userId = some user)
    (hid : user.id = some pid)
    (hlim : user.creditLimit ≠ 0)
    (hexp : pending.type = TxType.expense)
    (hcm : pending.paymentMethod = PayMethod.credit)
    (hacc : (confirmTransaction user st pending editing edited now).1 =
      ConfirmOutcome.accepted) :
    ∃ p', getProfile
        (confirmTransaction user st pending editing edited now).2.profiles
        user.userId = some p' ∧ p'.creditUsed ≤ user.creditLimit := by
  rcases hedit : (if editing then edited else pending.amount) with _ | _ | _ | a
  · simp [confirmTransaction, hedit, jsIsNaN] at hacc
  · simp [confirmTransaction, hedit, hexp, hcm, jsIsNaN, jsLeZero, jsGtQ] at hacc
  · simp [confirmTransaction, hedit, jsIsNaN, jsLeZero] at hacc
  · by_cases hle : a ≤ 0
    · simp [confirmTransaction, hedit, jsIsNaN, jsLeZero, hle] at hacc
    · by_cases hgt : jsOrQ user.creditLimit 5000 - jsOrQ user.creditUsed 0 < a
      · simp [confirmTransaction, hedit, hexp, hcm, jsIsNaN, jsLeZero, jsGtQ,
          hle, hgt] at hacc
      · have hres : (confirmTransaction user st pending editing edited now).2 =
            addTransaction st
              { amount := a, type := TxType.expense
                paymentMethod := some PayMethod.credit
                category := pending.category, description := pending.description
                date := now, userId := user.userId } := by
          simp [confirmTransaction, hedit, hexp, hcm, jsIsNaN, jsLeZero, jsGtQ,
            hle, hgt, jsToQ]
        have hstep := getProfile_addTransaction st
          { amount := a, type := TxType.expense
            paymentMethod := some PayMethod.credit
            category := pending.category, description := pending.description
            date := now, userId := user.userId } user pid hsync hid
        rw [if_pos (by simp [isCreditExpense])] at hstep
        refine ⟨_, by rw [hres]; exact hstep, ?_⟩
        have ha : a ≤ jsOrQ user.creditLimit 5000 - jsOrQ user.creditUsed 0 :=
          not_lt.mp hgt
        rw [jsOrQ_zero_right] at ha
        have hl : jsOrQ user.creditLimit 5000 = user.creditLimit := by
          simp [jsOrQ, hlim]
        rw [hl] at ha
        simpa using by linarith

/-- Witness for `creditUsed_le_limit_on_accept`: the accepted 300 credit
expense of Scenario 2 leaves the stored profile within its 5000 limit. -/
theorem creditUsed_le_limit_on_accept_witness :
    c4User.creditLimit ≠ 0 ∧
    ∃ p', getProfile
        (confirmTransaction c4User c4State (c4Pending 300 "food") false
          (JSNum.fin 0) 0).2.profiles "c4" = some p' ∧
        p'.creditUsed ≤ c4User.creditLimit := by
  refine ⟨by norm_num [c4User], ?_⟩
  exact creditUsed_le_limit_on_accept c4User c4State (c4Pending 300 "food") false
    (JSNum.fin 0) 0 1 rfl rfl (by norm_num [c4User]) rfl rfl
    (by simp [confirmTransaction, c4Pending, c4User, jsIsNaN, jsLeZero, jsGtQ, jsOrQ]
        norm_num)

/-- A second zero-limit profile, for the C5 counterexample. -/
def c5zUser : Profile :=
  { id := some 3, userId := "z5", fullName := "Z", initialBalance := 0
    creditLimit := 0, creditUsed := 0 }

/-- C5, counterexample to the claim as stated: with `creditLimit = 0` a 250
credit expense is accepted at the call site (which checks against the default
5000) and leaves the stored profile with `creditUsed = 250 > 0 =
creditLimit`. -/
theorem creditUsed_exceeds_zero_limit :
    (confirmTransaction c5zUser (DBState.mk [c5zUser] [])
        { amount := JSNum.fin 250, type := TxType.expense
          paymentMethod := PayMethod.credit, category := "food", description := "" }
        false (JSNum.fin 0) 0).1 = ConfirmOutcome.accepted ∧
    getProfile
      (confirmTransaction c5zUser (DBState.mk [c5zUser] [])
        { amount := JSNum.fin 250, type := TxType.expense
          paymentMethod := PayMethod.credit, category := "food", description := "" }
        false (JSNum.fin 0) 0).2.profiles "z5" =
      some { id := some 3, userId := "z5", fullName := "Z", initialBalance := 0
             creditLimit := 0, creditUsed := 250 } ∧
    ¬ (250 : ℚ) ≤ (0 : ℚ) := by
  refine ⟨?_, ?_, by norm_num⟩ <;>
    · simp [confirmTransaction, c5zUser, jsIsNaN, jsLeZero, jsGtQ, jsOrQ, jsToQ,
        addTransaction, isCreditExpense, getProfile, updateCreditUsed]
      norm_num

/-- C7 (amended): a parsed amount that is NaN or non-positive (a finite value
≤ 0, or −Infinity, which compares ≤ 0) is rejected with a validation error:
the outcome is `invalidAmount` and the store is returned unchanged — nothing
is inserted and the input is never coerced to zero.  (`+Infinity` is not
covered: it passes the `isNaN(x) || x <= 0` guard, see the counterexample.) -/
theorem confirmTransaction_rejects_bad_amount (user : Profile) (st : DBState)
    (pending : Pending) (editing : Bool) (edited : JSNum) (now : Int)
    (hbad : (if editing then edited else pending.amount) = JSNum.nan ∨
            (if editing then edited else pending.amount) = JSNum.negInf ∨
            ∃ q : ℚ, q ≤ 0 ∧ (if editing then edited else pending.amount) = JSNum.fin q) :
    confirmTransaction user st pending editing edited now =
      (ConfirmOutcome.invalidAmount, st) := by
  rcases hbad with h | h | ⟨q, hq, h⟩ <;>
    simp [confirmTransaction, h, jsIsNaN, jsLeZero, *]

/-- Witness for `confirmTransaction_rejects_bad_amount`: editing the amount
to −5 is rejected and the one-profile store is untouched. -/
theorem confirmTransaction_rejects_bad_amount_witness :
    confirmTransaction c4User c4State (c4Pending 300 "food") true
      (JSNum.fin (-5)) 0 = (ConfirmOutcome.invalidAmount, c4State) :=
  confirmTransaction_rejects_bad_amount c4User c4State (c4Pending 300 "food") true
    (JSNum.fin (-5)) 0 (Or.inr (Or.inr ⟨-5, by norm_num, rfl⟩))

/-- C7, counterexample to the claim as stated: a parsed amount of
`+Infinity` (e.g. `parseFloat` of an overflowing numeral such as `1e400`) is
non-finite, yet `isNaN(x) || x <= 0` does not reject it — a debit-method
pending expense is accepted and a transaction is inserted. -/
theorem confirmTransaction_accepts_posInf :
    (confirmTransaction c4User c4State
        { amount := JSNum.fin 10, type := TxType.expense
          paymentMethod := PayMethod.debit, category := "food", description := "" }
        true JSNum.posInf 0).1 = ConfirmOutcome.accepted ∧
    (confirmTransaction c4User c4State
        { amount := JSNum.fin 10, type := TxType.expense
          paymentMethod := PayMethod.debit, category := "food", description := "" }
        true JSNum.posInf 0).2.transactions.length =
      c4State.transactions.length + 1 := by
  constructor <;>
    simp [confirmTransaction, jsIsNaN, jsLeZero, jsGtQ, addTransaction,
      isCreditExpense, c4State]

/-! Days-until-due (C6).  src/src/pages/AI.tsx (`getFinancialContext`)
computes, in local time: `dueDate = new Date(y, m, dueDay)` — or
`new Date(y, m + 1, dueDay)` when `today.getDate() > dueDay` — and
`daysUntilDue = Math.ceil((dueDate - today) / 86400000)`.

JS `new Date(y, m, d)` denotes midnight of day `d` of month `m`, with
out-of-range `d` normalised by day arithmetic, so `new Date(y, m, d)` is
exactly (start of month m) + (d − 1) days, and `new Date(y, m + 1, d)` is
(start of month m) + dim + (d − 1) days, where `dim` is the number of days
in month `m`.  `today` is `dueDate`'s month start + (dayOfMonth − 1) days +
the elapsed milliseconds of the current day.  Days are uniform 86400000 ms
(no DST modelling — the due-day arithmetic in the claim is DST-free).
`ClockToday` carries exactly the three quantities the computation uses. -/

/-- "Now" as the current month's length in days, today's day-of-month, and
the elapsed milliseconds of the current day. -/
structure ClockToday where
  dim : Int
  dayOfMonth : Int
  msOfDay : Int
deriving DecidableEq, Repr

def MS_PER_DAY : Int := 86400000

/-- `Math.ceil(a / b)` on an exact integer quotient, `b > 0`. -/
def jsCeilDiv (a b : Int) : Int := -((-a) / b)

/-- Whole days from today's midnight to the chosen due date: next month's
occurrence when today's day-of-month has passed `dueDay`, else this
month's. -/
def dueOffsetDays (today : ClockToday) (dueDay : Int) : Int :=
  if today.dayOfMonth > dueDay then today.dim - today.dayOfMonth + dueDay
  else dueDay - today.dayOfMonth

/-- `daysUntilDue` as inlined in `getFinancialContext` (AI.tsx):
`Math.ceil((dueDate.getTime() - today.getTime()) / 86400000)`. -/
def daysUntilDue (today : ClockToday) (dueDay : Int) : Int :=
  jsCeilDiv (dueOffsetDays today dueDay * MS_PER_DAY - today.msOfDay) MS_PER_DAY

/-- Modelled from the spec: `calculateDaysUntil(day)` lives in
src/lib/plannerDb.ts, which is not in the source tree (only its import sites
are); the spec states it uses the same "next occurrence" logic as the credit
due date — if `day` has already passed this month, compute against next
month's occurrence — returning the non-negative ceiling day count. -/
def calculateDaysUntil (today : ClockToday) (day : Int) : Int :=
  jsCeilDiv (dueOffsetDays today day * MS_PER_DAY - today.msOfDay) MS_PER_DAY

theorem jsCeilDiv_mul_sub (d t : Int) (h0 : 0 ≤ t) (h1 : t < MS_PER_DAY) :
    jsCeilDiv (d * MS_PER_DAY - t) MS_PER_DAY = d := by
  unfold jsCeilDiv
  have hne : MS_PER_DAY ≠ 0 := by norm_num [MS_PER_DAY]
  have : -(d * MS_PER_DAY - t) = t + (-d) * MS_PER_DAY := by ring
  rw [this, Int.add_mul_ediv_right t (-d) hne,
    Int.ediv_eq_zero_of_lt h0 h1]
  ring

/-- C6: for a due day `d` in 1..31, today's day-of-month in range for the
current month (whose length is 28..31) and a real time-of-day, both the
inlined due-date computation of `getFinancialContext` and
`calculateDaysUntil` return 0 exactly when `d` is today's day-of-month, and
otherwise a value in [1, 31], the far side being next month's occurrence of
`d` when `d` has already passed. -/
theorem daysUntilDue_range (today : ClockToday) (dueDay : Int)
    (hdue : 1 ≤ dueDay ∧ dueDay ≤ 31)
    (hdim : 28 ≤ today.dim ∧ today.dim ≤ 31)
    (hdom : 1 ≤ today.dayOfMonth ∧ today.dayOfMonth ≤ today.dim)
    (hms : 0 ≤ today.msOfDay ∧ today.msOfDay < MS_PER_DAY) :
    (dueDay = today.dayOfMonth →
      daysUntilDue today dueDay = 0 ∧ calculateDaysUntil today dueDay = 0) ∧
    (dueDay ≠ today.dayOfMonth →
      (1 ≤ daysUntilDue today dueDay ∧ daysUntilDue today dueDay ≤ 31) ∧
      (1 ≤ calculateDaysUntil today dueDay ∧ calculateDaysUntil today dueDay ≤ 31)) := by
  have hcal : calculateDaysUntil today dueDay = daysUntilDue today dueDay := rfl
  have hval : daysUntilDue today dueDay = dueOffsetDays today dueDay := by
    unfold daysUntilDue
    exact jsCeilDiv_mul_sub _ _ hms.1 hms.2
  rw [hcal, hval]
  unfold dueOffsetDays
  constructor
  · intro heq
    rw [if_neg (by omega)]
    omega
  · intro hne
    by_cases hgt : today.dayOfMonth > dueDay
    · rw [if_pos hgt]
      omega
    · rw [if_neg hgt]
      omega

/-- Witness for `daysUntilDue_range`: Scenario 3 — today is day 10 of a
31-day month, `creditDueDay = 5`, so the due date is day 5 of next month,
(31 − 10) + 5 = 26 days away. -/
theorem daysUntilDue_range_witness :
    ((5 : Int) ≠ 10) ∧
    1 ≤ daysUntilDue ⟨31, 10, 3600000⟩ 5 ∧ daysUntilDue ⟨31, 10, 3600000⟩ 5 ≤ 31 ∧
    daysUntilDue ⟨31, 10, 3600000⟩ 5 = 26 := by
  have h := (daysUntilDue_range ⟨31, 10, 3600000⟩ 5 (by norm_num)
    (by norm_num) (by norm_num) (by norm_num [MS_PER_DAY])).2 (by norm_num)
  refine ⟨by norm_num, h.1.1, h.1.2, ?_⟩
  norm_num [daysUntilDue, dueOffsetDays, jsCeilDiv, MS_PER_DAY]

/-! Goal progress (C8), from src/src/pages/Login.tsx: the goals page
computes `getProgress(current, target) = Math.min((current / target) * 100,
100)` and renders a goal as completed when `progress >= 100`.  The code
carries the progress as a percentage; the fraction it represents is
`getProgress / 100`. -/

/-- `getProgress` from Login.tsx. -/
def getProgress (current target : ℚ) : ℚ :=
  min (current / target * 100) 100

/-- The completion test `progress >= 100` used at the goal card. -/
def isCompleted (progress : ℚ) : Bool :=
  decide (100 ≤ progress)

/-- C8: for every goal with `targetAmount > 0`, the computed progress — as
the fraction its percent representation stands for — equals
`min(currentAmount / targetAmount, 1)`; it is exactly 1 whenever
`currentAmount ≥ targetAmount`, never exceeds 1, and the goal counts as
completed exactly when that fraction is ≥ 1. -/
theorem getProgress_clamped (current target : ℚ) (htarget : 0 < target) :
    getProgress current target / 100 = min (current / target) 1 ∧
    (target ≤ current → getProgress current target / 100 = 1) ∧
    getProgress current target / 100 ≤ 1 ∧
    (isCompleted (getProgress current target) = true ↔
      1 ≤ min (current / target) 1) := by
  have hmain : getProgress current target / 100 = min (current / target) 1 := by
    unfold getProgress
    rcases le_total (current / target) 1 with h | h
    · rw [min_eq_left (by linarith), min_eq_left h]
      ring
    · rw [min_eq_right (by linarith), min_eq_right h]
      norm_num
  refine ⟨hmain, ?_, ?_, ?_⟩
  · intro hge
    rw [hmain, min_eq_right ((one_le_div htarget).mpr hge)]
  · rw [hmain]
    exact min_le_right _ _
  · unfold isCompleted
    rw [decide_eq_true_iff]
    constructor
    · intro h
      rw [hmain.symm.trans (by ring_nf : getProgress current target / 100 = getProgress current target * (1 / 100))] at *
      rw [← hmain]
      linarith
    · intro h
      rw [← hmain] at h
      linarith

/-- Witness for `getProgress_clamped`: a goal at 750 of 500 (overfunded) has
normalized progress exactly 1 and counts as completed. -/
theorem getProgress_clamped_witness :
    (0 : ℚ) < 500 ∧
    getProgress 750 500 / 100 = 1 ∧
    getProgress 750 500 / 100 ≤ 1 ∧
    isCompleted (getProgress 750 500) = true := by
  have h := getProgress_clamped 750 500 (by norm_num)
  refine ⟨by norm_num, h.2.1 (by norm_num), h.2.2.1, ?_⟩
  rw [h.2.2.2]
  rw [(h.1).symm, h.2.1 (by norm_num)]

end InovaFinance
